import Mathlib

/-!
# Verification of `notifications/models.py` (django-notifications)

A shallow embedding of the single source file `src/notifications/models.py`.
Python values flowing through the signal handler and the model fields are
modelled by the inductive `PyVal`; persisted domain objects (users, actors,
targets, ...) are modelled by `Entity`, carrying the content-type id that
`ContentType.objects.get_for_model` would return, the primary key, the
`str()` rendering, and the attributes reachable via `getattr`.  Datetimes
are modelled as `Nat` ticks.  A database table is a `List` of rows; a
Django queryset obtained by row-wise filters is modelled by a row
predicate (`Notification → Bool`) over such a list.
-/

namespace DjangoNotifications

/-- A persisted domain object, as seen through the content-type framework:
`ctype` is the id `ContentType.objects.get_for_model` yields for its class,
`pk` its primary key (Django stores it into a `CharField`, hence `String`),
`str` its `str()`/`unicode()` rendering, and `attrs` the string attributes
reachable via `getattr` (used by the `custom_ctx` rendering feature). -/
structure Entity where
  ctype : Nat
  pk : String
  str : String
  attrs : List (String × String)
  deriving DecidableEq

/-- A Python value as it appears in the signal's keyword arguments and in
the model's loosely typed fields.  Dicts are modelled string-to-string,
which is what the `custom_ctx` feature consumes. -/
inductive PyVal where
  | pyNone
  | pyBool (b : Bool)
  | pyStr (s : String)
  | pyNat (n : Nat)
  | pyObj (e : Entity)
  | pyDict (d : List (String × String))
  deriving DecidableEq

instance : Inhabited PyVal := ⟨PyVal.pyNone⟩

/-- Python truthiness (`bool(v)` / `if v:`). -/
def PyVal.toBool : PyVal → Bool
  | .pyNone => false
  | .pyBool b => b
  | .pyStr s => !(s == "")
  | .pyNat n => n != 0
  | .pyObj _ => true
  | .pyDict d => !d.isEmpty

/-- Python `str()` / `unicode()` of a value (`None` prints as `"None"`). -/
def PyVal.str : PyVal → String
  | .pyNone => "None"
  | .pyBool b => if b then "True" else "False"
  | .pyStr s => s
  | .pyNat n => toString n
  | .pyObj e => e.str
  | .pyDict d =>
      "\x7b" ++ String.intercalate ", "
        (d.map (fun p => "\x27" ++ p.1 ++ "\x27: \x27" ++ p.2 ++ "\x27")) ++ "\x7d"

/-- Model of `kwargs.pop(k, None)` on a Python dict modelled as an association list
with distinct keys: the looked-up value (if any) together with the
dictionary with that key removed. -/
def kwPop (k : String) (kw : List (String × PyVal)) :
    Option PyVal × List (String × PyVal) :=
  ((kw.find? (fun p => p.1 == k)).map Prod.snd,
   kw.filter (fun p => !(p.1 == k)))

/-- Lookup `kwargs[k]` without removal (used to state claims about which
keys a payload carries). -/
def kwLookup (k : String) (kw : List (String × PyVal)) : Option PyVal :=
  (kw.find? (fun p => p.1 == k)).map Prod.snd

/-- The row type of the `Notification` model (`models.py` lines 51-113).
`recipient` stores the user object handed to the foreign key;
`actor_content_type`/`actor_object_id` are the required generic reference
to the actor; the `target` and `action_object` generic references are
nullable (`blank=True, null=True`).  `custom_ctx` and `data` are the
extra fields contributed when `NOTIFY_USE_JSONFIELD` is set. -/
structure Notification where
  level : String
  recipient : PyVal
  unread : Bool
  actor_content_type : Nat
  actor_object_id : String
  verb : String
  description : PyVal
  target_content_type : Option Nat
  target_object_id : Option String
  action_object_content_type : Option Nat
  action_object_object_id : Option String
  timestamp : Nat
  public : Bool
  custom_str_format : PyVal
  custom_ctx : PyVal
  data : Option (List (String × PyVal))
  deriving DecidableEq

instance : Inhabited Notification :=
  ⟨⟨"info", .pyNone, true, 0, "", "", .pyNone, none, none, none, none, 0,
    true, .pyNone, .pyNone, none⟩⟩

/-- Django's `filter(recipient=recipient)` compares the stored foreign key
with the given user by primary key. -/
def recipientMatch (stored given : PyVal) : Bool :=
  match stored, given with
  | .pyObj e, .pyObj f => e.pk == f.pk
  | s, g => s == g

namespace NotificationQuerySet

/-- Method `NotificationQuerySet.unread` (lines 22-24): row filter `unread=True`. -/
def unreadFilter (n : Notification) : Bool := n.unread

/-- Method `NotificationQuerySet.read` (lines 26-28): row filter `unread=False`. -/
def readFilter (n : Notification) : Bool := !n.unread

/-- Method `NotificationQuerySet.mark_all_as_read` (lines 30-39): on the queryset
`scope` of the table `db`, take the unread rows, optionally (Python
truthiness of `recipient`) filter them by recipient, and bulk-update
`unread=False` on exactly those rows. -/
def mark_all_as_read (scope : Notification → Bool) (recipient : PyVal)
    (db : List Notification) : List Notification :=
  db.map fun n =>
    if scope n && NotificationQuerySet.unreadFilter n &&
        (if recipient.toBool then recipientMatch n.recipient recipient else true)
    then { n with unread := false } else n

/-- Method `NotificationQuerySet.mark_all_as_unread` (lines 41-48): symmetric
bulk update `unread=True` on the read rows of the scope. -/
def mark_all_as_unread (scope : Notification → Bool) (recipient : PyVal)
    (db : List Notification) : List Notification :=
  db.map fun n =>
    if scope n && NotificationQuerySet.readFilter n &&
        (if recipient.toBool then recipientMatch n.recipient recipient else true)
    then { n with unread := true } else n

end NotificationQuerySet

/-- Method `Notification.mark_as_read` (lines 150-153): single-row transition,
a no-op when the row is already read. -/
def Notification.mark_as_read (n : Notification) : Notification :=
  if n.unread then { n with unread := false } else n

/-- The Python exceptions the embedded code can raise.
`improperlyConfigured` models `django.core.exceptions.ImproperlyConfigured`
(the "ConfigurationError" of the specification); `keyError` models a
`KeyError` from `dict.pop` on a missing key; `typeError` models a
`TypeError` (e.g. an invalid keyword argument passed to the model
constructor, or a missing required function argument); `attributeError`
models an `AttributeError` from `getattr`/`.pk` on an unsuitable value. -/
inductive PyError where
  | keyError (k : String)
  | typeError
  | attributeError
  | improperlyConfigured (msg : String)
  deriving DecidableEq

/-- Is the outcome a raised `ImproperlyConfigured` ("ConfigurationError")? -/
def isConfigurationError : Except PyError Notification → Bool
  | .error (.improperlyConfigured _) => true
  | _ => false

/-- One step of the loop `for opt in ('target', 'action_object')`
(lines 197-202): pop the key; `None` (or absent) leaves the reference
pair unset; otherwise the value must be a persisted object, whose
`(content type, pk)` pair is stored; `.pk` on a non-object raises. -/
def popRef (key : String) (kw : List (String × PyVal)) :
    Except PyError (Option (Nat × String) × List (String × PyVal)) :=
  match kwPop key kw with
  | (none, kw') => .ok (none, kw')
  | (some .pyNone, kw') => .ok (none, kw')
  | (some (.pyObj e), kw') => .ok (some (e.ctype, e.pk), kw')
  | (some _, _) => .error .attributeError

/-- Translation of `notify_handler` (lines 176-205), the Event-to-Record Adapter.
`extraData` is the module-level `EXTRA_DATA` flag (lines 155-173): when
`NOTIFY_USE_JSONFIELD` is set, the `data` and `custom_ctx` fields are
contributed to the model; otherwise they do not exist, and passing the
`custom_ctx` keyword to `Notification(...)` (line 194) raises a
`TypeError` from Django's `Model.__init__` invalid-keyword check —
modelled by the `else` branch below.  `nowT` is the wall clock `now()`;
datetimes are `Nat` ticks, and a non-datetime `timestamp` value (which
Django would reject when saving the row) is rejected with a `TypeError`.
Returns the saved row, or the exception raised. -/
def notify_handler (extraData : Bool) (nowT : Nat) (verb : PyVal)
    (kwargs : List (String × PyVal)) : Except PyError Notification :=
  let kw1 := (kwPop "signal" kwargs).2
  match kwPop "recipient" kw1 with
  | (none, _) => .error (.keyError "recipient")
  | (some recipient, kw2) =>
  match kwPop "sender" kw2 with
  | (none, _) => .error (.keyError "sender")
  | (some sender, kw3) =>
  let p4 := kwPop "custom_ctx" kw3
  let p5 := kwPop "custom_str_format" p4.2
  match sender with
  | .pyObj actorEnt =>
    let p6 := kwPop "public" p5.2
    let p7 := kwPop "description" p6.2
    let p8 := kwPop "timestamp" p7.2
    match p8.1.getD (.pyNat nowT) with
    | .pyNat ts =>
      if extraData then
        let n0 : Notification :=
          { level := "info"
            recipient := recipient
            unread := true
            actor_content_type := actorEnt.ctype
            actor_object_id := actorEnt.pk
            verb := verb.str
            description := p7.1.getD .pyNone
            target_content_type := none
            target_object_id := none
            action_object_content_type := none
            action_object_object_id := none
            timestamp := ts
            public := (p6.1.getD (.pyBool true)).toBool
            custom_str_format := p5.1.getD .pyNone
            custom_ctx := p4.1.getD .pyNone
            data := none }
        match popRef "target" p8.2 with
        | .error e => .error e
        | .ok (tgt, kw9) =>
        match popRef "action_object" kw9 with
        | .error e => .error e
        | .ok (ao, kw10) =>
        let n1 := { n0 with
          target_content_type := tgt.map Prod.fst
          target_object_id := tgt.map Prod.snd
          action_object_content_type := ao.map Prod.fst
          action_object_object_id := ao.map Prod.snd }
        .ok (if kw10.length != 0 then { n1 with data := some kw10 } else n1)
      else .error .typeError
    | _ => .error .typeError
  | _ => .error .attributeError

/-- Dispatch of the `notify` signal to `notify_handler`: the receiver's
signature is `notify_handler(verb, **kwargs)`, so the `verb` keyword of
the send becomes the positional argument; a send without a `verb`
keyword raises a `TypeError` (missing required argument) before the
handler body runs. -/
def notify_send (extraData : Bool) (nowT : Nat)
    (kwargs : List (String × PyVal)) : Except PyError Notification :=
  match kwPop "verb" kwargs with
  | (some v, rest) => notify_handler extraData nowT v rest
  | (none, _) => .error .typeError

/-- The state-mutating operations the module offers on the notification
table (its only other queryset methods, `unread()` and `read()`, are pure
filters and mutate nothing). -/
inductive StoreOp where
  | opMarkAsRead (i : Nat)
  | opMarkAllAsRead (scope : Notification → Bool) (recipient : PyVal)
  | opMarkAllAsUnread (scope : Notification → Bool) (recipient : PyVal)
  | opNotify (extraData : Bool) (nowT : Nat) (verb : PyVal)
      (kwargs : List (String × PyVal))

/-- Replace the row at index `i` by `f` of it (a single-row `save()`). -/
def modifyAt (f : Notification → Notification) :
    Nat → List Notification → List Notification
  | _, [] => []
  | 0, x :: rest => f x :: rest
  | i + 1, x :: rest => x :: modifyAt f i rest

/-- Effect of each module operation on the table. `opNotify` appends the
created row on success and leaves the table unchanged on an exception. -/
def StoreOp.apply : StoreOp → List Notification → List Notification
  | .opMarkAsRead i, db => modifyAt Notification.mark_as_read i db
  | .opMarkAllAsRead scope r, db =>
      NotificationQuerySet.mark_all_as_read scope r db
  | .opMarkAllAsUnread scope r, db =>
      NotificationQuerySet.mark_all_as_unread scope r db
  | .opNotify extraData nowT verb kwargs, db =>
      match notify_handler extraData nowT verb kwargs with
      | .ok n => db ++ [n]
      | .error _ => db

/-- The two explicit mark-as-read paths of the module. -/
def StoreOp.isExplicitMarkRead : StoreOp → Prop
  | .opMarkAsRead _ => True
  | .opMarkAllAsRead _ _ => True
  | _ => False

/-- A `GenericForeignKey` access against the table `db` of persisted
entities: `None` when either half of the `(content type, object id)` pair
is null, the looked-up object otherwise (Django's accessor swallows
`DoesNotExist` and yields `None` for a stale reference). -/
def gfk (db : List Entity) (ct : Option Nat) (oid : Option String) :
    Option Entity :=
  match ct, oid with
  | some c, some i => db.find? (fun e => e.ctype == c && e.pk == i)
  | _, _ => none

/-- Either `None` or the object, as the Python value a generic foreign key
evaluates to. -/
def optEntityVal : Option Entity → PyVal
  | some e => .pyObj e
  | none => .pyNone

/-- Model of `getattr(v, attr)`: attribute lookup on a persisted object (the
`custom_ctx` feature substitutes one of the object's string attributes
for the object); anything else raises `AttributeError`. -/
def pyGetattr (v : PyVal) (attr : String) : Except PyError PyVal :=
  match v with
  | .pyObj e =>
      match e.attrs.find? (fun p => p.1 == attr) with
      | some p => .ok (.pyStr p.2)
      | none => .error .attributeError
  | _ => .error .attributeError

/-- The loop `for c in self.custom_ctx: if c in ctx: ctx[c] =
getattr(ctx[c], self.custom_ctx[c])` (lines 124-127). -/
def applyCustomCtx (d : List (String × String))
    (ctx : List (String × PyVal)) : Except PyError (List (String × PyVal)) :=
  match d with
  | [] => .ok ctx
  | (c, attr) :: rest =>
    match ctx.find? (fun p => p.1 == c) with
    | some p =>
      match pyGetattr p.2 attr with
      | .error e => .error e
      | .ok v =>
          applyCustomCtx rest (ctx.map (fun q => if q.1 == c then (q.1, v) else q))
    | none => applyCustomCtx rest ctx

/-- Split a character list at the first `)` — the key parser of
`%(name)s`-style interpolation.  Returns the key and the remainder after
the `)`. -/
def splitKey : List Char → Option (List Char × List Char)
  | [] => none
  | c :: rest =>
    if c = ')' then some ([], rest)
    else (splitKey rest).map (fun p => (c :: p.1, p.2))

/-- Python `%`-interpolation of a format string against a string-keyed
mapping, for the `%(name)s` conversions the module uses (`%%` escapes a
percent; a missing key raises `KeyError`; conversions this model does
not cover raise).  `fuel` bounds the recursion and is set to the length
of the string, which the scan never exceeds since every step consumes at
least one character. -/
def pyFormatGo (ctx : List (String × PyVal)) :
    Nat → List Char → Except PyError (List Char)
  | _, [] => .ok []
  | 0, _ :: _ => .error .typeError
  | fuel + 1, c :: rest =>
    if c = '%' then
      match rest with
      | '%' :: rest2 => (pyFormatGo ctx fuel rest2).map ('%' :: ·)
      | '(' :: rest2 =>
        match splitKey rest2 with
        | some (key, 's' :: rest3) =>
          match ctx.find? (fun p => p.1 == String.mk key) with
          | some p => (pyFormatGo ctx fuel rest3).map (p.2.str.toList ++ ·)
          | none => .error (.keyError (String.mk key))
        | _ => .error .typeError
      | _ => .error .typeError
    else (pyFormatGo ctx fuel rest).map (c :: ·)

/-- Interpolation `fmt % ctx` for a Python format string and dict. -/
def pyFormat (fmt : String) (ctx : List (String × PyVal)) :
    Except PyError String :=
  (pyFormatGo ctx fmt.toList.length fmt.toList).map String.mk

/-- The template context dict built at lines 116-122: actor, verb,
action_object, target and the time-since rendering of the timestamp
(`tsFn` abstracts `django.utils.timesince`). -/
def Notification.renderCtx (db : List Entity) (tsFn : Nat → String)
    (n : Notification) : List (String × PyVal) :=
  [("actor", optEntityVal (gfk db (some n.actor_content_type) (some n.actor_object_id))),
   ("verb", .pyStr n.verb),
   ("action_object", optEntityVal (gfk db n.action_object_content_type n.action_object_object_id)),
   ("target", optEntityVal (gfk db n.target_content_type n.target_object_id)),
   ("timesince", .pyStr (tsFn n.timestamp))]

/-- Method `Notification.__unicode__` (lines 115-136): build the context, apply
the `custom_ctx` substitutions if that field is truthy, then interpolate
`custom_str_format` if truthy, else pick the default template by the
truthiness of the `target` and `action_object` references. -/
def Notification.unicodeStr (db : List Entity) (tsFn : Nat → String)
    (n : Notification) : Except PyError String :=
  let ctxE :=
    if n.custom_ctx.toBool then
      match n.custom_ctx with
      | .pyDict d => applyCustomCtx d (n.renderCtx db tsFn)
      | _ => .error .typeError
    else .ok (n.renderCtx db tsFn)
  match ctxE with
  | .error e => .error e
  | .ok ctx =>
    if n.custom_str_format.toBool then
      match n.custom_str_format with
      | .pyStr f => pyFormat f ctx
      | _ => .error .typeError
    else
      match gfk db n.target_content_type n.target_object_id with
      | some _ =>
        match gfk db n.action_object_content_type n.action_object_object_id with
        | some _ =>
            pyFormat "%(actor)s %(verb)s %(action_object)s on %(target)s %(timesince)s ago" ctx
        | none => pyFormat "%(actor)s %(verb)s %(target)s %(timesince)s ago" ctx
      | none =>
        match gfk db n.action_object_content_type n.action_object_object_id with
        | some _ =>
            pyFormat "%(actor)s %(verb)s %(action_object)s %(timesince)s ago" ctx
        | none => pyFormat "%(actor)s %(verb)s %(timesince)s ago" ctx

/-- The default ordering of the model, `Meta.ordering = ('-timestamp',)`
(lines 112-113): newest first. -/
def byTimestampDesc (a b : Notification) : Prop :=
  b.timestamp ≤ a.timestamp

instance : DecidableRel byTimestampDesc := fun a b =>
  inferInstanceAs (Decidable (b.timestamp ≤ a.timestamp))

instance : IsTotal Notification byTimestampDesc :=
  ⟨fun a b => Nat.le_total b.timestamp a.timestamp⟩

instance : IsTrans Notification byTimestampDesc :=
  ⟨fun _ _ _ h1 h2 => Nat.le_trans h2 h1⟩

/-- Retrieval in the model's default order (`ORDER BY timestamp DESC`);
the database may return any ordering consistent with the sort key, here
realised by a stable sort. -/
def defaultOrdering (db : List Notification) : List Notification :=
  List.insertionSort byTimestampDesc db

/-- The key/value pairs of an event payload that survive every pop the
handler performs (`signal`, `recipient`, `sender`, `custom_ctx`,
`custom_str_format`, `public`, `description`, `timestamp`, `target`,
`action_object`) — the candidate `data` payload. -/
def remainingKwargs (kwargs : List (String × PyVal)) :
    List (String × PyVal) :=
  (kwPop "action_object"
    (kwPop "target"
      (kwPop "timestamp"
        (kwPop "description"
          (kwPop "public"
            (kwPop "custom_str_format"
              (kwPop "custom_ctx"
                (kwPop "sender"
                  (kwPop "recipient"
                    (kwPop "signal" kwargs).2).2).2).2).2).2).2).2).2).2

/-- The keys the adapter recognizes and extracts from an event payload
(either popped explicitly or consumed by the reference loop); anything
else is an "extra" key. -/
def recognizedKeys : List String :=
  ["signal", "recipient", "sender", "custom_ctx", "custom_str_format",
   "public", "description", "timestamp", "target", "action_object"]

/-- The rendered string as the specification words it (claim C4): the
template selected by the presence of target and action_object, with the
"`{action_object} on`" clause included only when an action object is
present.  Written from the spec's words, to be compared with the code's
`Notification.unicodeStr`. -/
def specRender (actorS verbS : String) (aoS tS : Option String)
    (tsS : String) : String :=
  match tS with
  | some t =>
    match aoS with
    | some ao =>
        actorS ++ " " ++ verbS ++ " " ++ ao ++ " on " ++ t ++ " " ++ tsS ++ " ago"
    | none => actorS ++ " " ++ verbS ++ " " ++ t ++ " " ++ tsS ++ " ago"
  | none =>
    match aoS with
    | some ao => actorS ++ " " ++ verbS ++ " " ++ ao ++ " " ++ tsS ++ " ago"
    | none => actorS ++ " " ++ verbS ++ " " ++ tsS ++ " ago"

/-! ## Concrete sample data, used by witnesses and counterexamples -/

/-- A sample user (recipient). -/
def userU : Entity := ⟨1, "7", "U", []⟩

/-- A second, distinct user. -/
def userW : Entity := ⟨1, "8", "W", []⟩

/-- A sample actor entity whose `str()` is `"A"`. -/
def objA : Entity := ⟨2, "1", "A", [("name", "alice")]⟩

/-- A sample target entity whose `str()` is `"T"`. -/
def objT : Entity := ⟨3, "9", "T", []⟩

/-- The entity table for rendering samples. -/
def dbE : List Entity := [objA, objT, userU, userW]

/-- A sample stored row: `U`'s unread notification "A commented on T". -/
def sampleN : Notification :=
  { level := "info", recipient := .pyObj userU, unread := true,
    actor_content_type := 2, actor_object_id := "1",
    verb := "commented on", description := .pyNone,
    target_content_type := some 3, target_object_id := some "9",
    action_object_content_type := none, action_object_object_id := none,
    timestamp := 5, public := true,
    custom_str_format := .pyNone, custom_ctx := .pyNone, data := none }

/-- A second sample row, for user `W`, with the same timestamp. -/
def sampleW : Notification :=
  { sampleN with recipient := .pyObj userW, verb := "liked" }

/-- A sample event payload: required fields, one optional reference and
one extra pair. -/
def kwSample : List (String × PyVal) :=
  [("recipient", .pyObj userU), ("sender", .pyObj objA),
   ("target", .pyObj objT), ("foo", .pyStr "bar")]

/-- The row the adapter creates from `kwSample`. -/
def createdSample : Notification :=
  (notify_handler true 0 (.pyStr "liked") kwSample).toOption.getD default

/-- A payload whose only extra key is `signal`. -/
def kwOnlySignal : List (String × PyVal) :=
  [("signal", .pyStr "sig"), ("recipient", .pyObj userU),
   ("sender", .pyObj objA)]

/-- The row the adapter creates from `kwOnlySignal`. -/
def createdSignal : Notification :=
  (notify_handler true 0 (.pyStr "liked") kwOnlySignal).toOption.getD default

/-- A payload with required fields and a single extra pair. -/
def kwExtra : List (String × PyVal) :=
  [("recipient", .pyObj userU), ("sender", .pyObj objA),
   ("foo", .pyStr "bar")]

/-! ## Helper lemmas about the adapter's keyword processing -/

/-- On success, `popRef` leaves the dictionary with the key removed. -/
theorem popRef_ok_snd {k : String} {kw : List (String × PyVal)}
    {res : Option (Nat × String) × List (String × PyVal)}
    (h : popRef k kw = .ok res) : res.2 = (kwPop k kw).2 := by
  unfold popRef at h
  split at h
  next x kw' heq => cases h; rw [heq]
  next x kw' heq => cases h; rw [heq]
  next x e kw' heq => cases h; rw [heq]
  next => cases h

/-- A `find?` that fails keeps failing on any sublist obtained by
filtering. -/
theorem find?_filter_eq_none {α} {p q : α → Bool} {l : List α}
    (h : l.find? p = none) : (l.filter q).find? p = none := by
  rw [List.find?_eq_none] at *
  intro x hx
  exact h x (List.mem_of_mem_filter hx)

/-- Filtering by a predicate that keeps everything the search accepts
does not change the result of `find?`. -/
theorem find?_filter_of_imp {α} {p q : α → Bool} {l : List α}
    (himp : ∀ x, p x = true → q x = true) :
    (l.filter q).find? p = l.find? p := by
  induction l with
  | nil => rfl
  | cons a t ih =>
    by_cases hq : q a = true
    · rw [List.filter_cons_of_pos hq]
      by_cases hp : p a = true
      · rw [List.find?_cons_of_pos _ hp, List.find?_cons_of_pos _ hp]
      · rw [List.find?_cons_of_neg _ (by simp [hp]),
            List.find?_cons_of_neg _ (by simp [hp]), ih]
    · rw [List.filter_cons_of_neg (by simp [hq])]
      have hp : ¬ p a = true := fun hpa => hq (himp a hpa)
      rw [ih, List.find?_cons_of_neg _ (by simp [hp])]

/-- Structural inversion of a successful `notify_handler` run: the
extended-data flag must have been on, the row is created unread, each
optional generic reference is set as a whole pair or not at all, and the
`data` attribute is exactly the surviving extra kwargs when there are
any. -/
theorem notify_handler_ok_spec {extraData : Bool} {nowT : Nat}
    {verb : PyVal} {kwargs : List (String × PyVal)} {n : Notification}
    (h : notify_handler extraData nowT verb kwargs = .ok n) :
    extraData = true ∧ n.unread = true ∧
    n.target_content_type.isSome = n.target_object_id.isSome ∧
    n.action_object_content_type.isSome = n.action_object_object_id.isSome ∧
    n.data = (if (remainingKwargs kwargs).length != 0
              then some (remainingKwargs kwargs) else none) := by
  simp only [notify_handler] at h
  rcases h1 : kwPop "recipient" (kwPop "signal" kwargs).2 with ⟨rv, kw2⟩
  rw [h1] at h
  cases rv with
  | none => simp at h
  | some recipient =>
    dsimp only [] at h
    rcases h2 : kwPop "sender" kw2 with ⟨sv, kw3⟩
    rw [h2] at h
    cases sv with
    | none => simp at h
    | some sender =>
      dsimp only [] at h
      cases sender
      case pyObj actorEnt =>
        dsimp only [] at h
        rcases h3 : (kwPop "timestamp" (kwPop "description" (kwPop "public"
            (kwPop "custom_str_format" (kwPop "custom_ctx" kw3).2).2).2).2).1.getD
            (PyVal.pyNat nowT) with _ | b | s | ts | e | d
        all_goals rw [h3] at h
        case pyNat =>
          dsimp only [] at h
          cases extraData with
          | false => simp at h
          | true =>
            simp only [if_true] at h
            rcases h4 : popRef "target" (kwPop "timestamp" (kwPop "description" (kwPop "public"
                (kwPop "custom_str_format" (kwPop "custom_ctx" kw3).2).2).2).2).2 with e4 | ⟨tgt, kw9⟩
            all_goals rw [h4] at h
            · simp at h
            · dsimp only [] at h
              rcases h5 : popRef "action_object" kw9 with e5 | ⟨ao, kw10⟩
              all_goals rw [h5] at h
              · simp at h
              · dsimp only [] at h
                simp only [Except.ok.injEq] at h
                subst h
                have hkw2 : kw2 = (kwPop "recipient" (kwPop "signal" kwargs).2).2 :=
                  (congrArg Prod.snd h1).symm
                have hkw3 : kw3 = (kwPop "sender" kw2).2 :=
                  (congrArg Prod.snd h2).symm
                have hkw9 : kw9 = (kwPop "target" (kwPop "timestamp" (kwPop "description"
                    (kwPop "public" (kwPop "custom_str_format"
                      (kwPop "custom_ctx" kw3).2).2).2).2).2).2 :=
                  popRef_ok_snd h4
                have hkw10 : kw10 = remainingKwargs kwargs := by
                  have h5' : kw10 = (kwPop "action_object" kw9).2 := popRef_ok_snd h5
                  rw [h5', hkw9, hkw3, hkw2]
                  rfl
                subst hkw10
                refine ⟨rfl, ?_, ?_, ?_, ?_⟩ <;>
                  (try split) <;>
                  simp [Option.isSome_map]
        all_goals simp at h
      all_goals simp at h


/-! ## Claims -/

/-- Claim C2: For every queryset scope and optional recipient, invoking
`mark_all_as_read` and then immediately invoking it again on the same
scope leaves the notification table exactly as after the first
invocation: the second bulk update matches no row, because every row the
first one touched is no longer unread. -/
theorem mark_all_as_read_idempotent (scope : Notification → Bool)
    (recipient : PyVal) (db : List Notification) :
    NotificationQuerySet.mark_all_as_read scope recipient
      (NotificationQuerySet.mark_all_as_read scope recipient db) =
    NotificationQuerySet.mark_all_as_read scope recipient db := by
  unfold NotificationQuerySet.mark_all_as_read
  rw [List.map_map]
  apply List.map_congr_left
  intro n _
  simp only [Function.comp_apply]
  by_cases h : (scope n && NotificationQuerySet.unreadFilter n &&
      (if recipient.toBool then recipientMatch n.recipient recipient else true)) = true
  · rw [if_pos h]
    simp [NotificationQuerySet.unreadFilter]
  · rw [if_neg h, if_neg h]

/-- Claim C5: `mark_all_as_read(scope, recipient=R)` with a (truthy)
recipient mutates only rows whose recipient is `R`: any row of the table
whose recipient does not match keeps its full state, unread flag
included. -/
theorem mark_all_as_read_recipient_frame (scope : Notification → Bool)
    (r : PyVal) (db : List Notification) (i : Nat) (x : Notification)
    (hr : r.toBool = true) (hx : db[i]? = some x)
    (hm : recipientMatch x.recipient r = false) :
    (NotificationQuerySet.mark_all_as_read scope r db)[i]? = some x := by
  unfold NotificationQuerySet.mark_all_as_read
  rw [List.getElem?_map, hx]
  simp [hr, hm]

/-- Witness for C5: marking all of `U`'s notifications as read leaves
`W`'s unread row untouched. -/
theorem mark_all_as_read_recipient_frame_witness :
    (NotificationQuerySet.mark_all_as_read (fun _ => true) (.pyObj userU)
      [sampleN, sampleW])[1]? = some sampleW :=
  mark_all_as_read_recipient_frame (fun _ => true) (.pyObj userU)
    [sampleN, sampleW] 1 sampleW (by decide) (by decide) (by decide)

/-- A pair surviving all the pops was in the payload and its key is not
one of the recognized keys. -/
theorem mem_remaining_key_ne {p : String × PyVal}
    {kwargs : List (String × PyVal)} (hp : p ∈ remainingKwargs kwargs) :
    p ∈ kwargs ∧ ¬ p.1 ∈ recognizedKeys := by
  unfold remainingKwargs kwPop at hp
  simp only [List.mem_filter] at hp
  obtain ⟨⟨⟨⟨⟨⟨⟨⟨⟨⟨hmem, c1⟩, c2⟩, c3⟩, c4⟩, c5⟩, c6⟩, c7⟩, c8⟩, c9⟩, c10⟩ := hp
  refine ⟨hmem, ?_⟩
  intro hrec
  simp only [recognizedKeys, List.mem_cons, List.not_mem_nil, or_false] at hrec
  rcases hrec with h | h | h | h | h | h | h | h | h | h <;> simp [h] at c1 c2 c3 c4 c5 c6 c7 c8 c9 c10

/-- Claim C1: (a) Every Notification created by the adapter starts with
`unread = true`; (b) among the module's mutating operations, only the
explicit mark-as-read paths (`mark_as_read` on a row, `mark_all_as_read`
on a queryset) can turn a row's `unread` from true to false: any other
operation leaves every unread row unread. -/
theorem unread_lifecycle_invariant :
    (∀ (extraData : Bool) (nowT : Nat) (verb : PyVal)
      (kwargs : List (String × PyVal)) (n : Notification),
      notify_handler extraData nowT verb kwargs = .ok n → n.unread = true) ∧
    (∀ (op : StoreOp) (db : List Notification) (i : Nat) (x : Notification),
      ¬ op.isExplicitMarkRead → db[i]? = some x → x.unread = true →
      ∃ y, (op.apply db)[i]? = some y ∧ y.unread = true) := by
  constructor
  · intro e t v kw n h
    exact (notify_handler_ok_spec h).2.1
  · intro op db i x hop hx hunread
    cases op with
    | opMarkAsRead j => exact absurd trivial hop
    | opMarkAllAsRead s r => exact absurd trivial hop
    | opMarkAllAsUnread s r =>
      simp only [StoreOp.apply, NotificationQuerySet.mark_all_as_unread,
        List.getElem?_map, hx, Option.map_some']
      refine ⟨_, rfl, ?_⟩
      repeat' split
      all_goals simp [hunread]
    | opNotify e t v kw =>
      simp only [StoreOp.apply]
      have hlen : i < db.length := by
        by_contra hc
        rw [List.getElem?_eq_none (Nat.le_of_not_lt hc)] at hx
        cases hx
      split
      · refine ⟨x, ?_, hunread⟩
        rw [List.getElem?_append_left hlen]
        exact hx
      · exact ⟨x, hx, hunread⟩

/-- Witness for C1: a concrete successful creation is unread, and a
concrete bulk mark-all-as-unread keeps an unread row unread. -/
theorem unread_lifecycle_invariant_witness :
    createdSample.unread = true ∧
    ∃ y, ((StoreOp.opMarkAllAsUnread (fun _ => true) .pyNone).apply
      [sampleN])[0]? = some y ∧ y.unread = true :=
  ⟨unread_lifecycle_invariant.1 true 0 (.pyStr "liked") kwSample
      createdSample rfl,
   unread_lifecycle_invariant.2 (.opMarkAllAsUnread (fun _ => true) .pyNone)
      [sampleN] 0 sampleN (by simp [StoreOp.isExplicitMarkRead]) rfl rfl⟩

/-- Claim C8: For every Notification the adapter creates, the `target`
reference is both-null or both-populated, and likewise the
`action_object` reference: the adapter never sets one half of a
`(content type, object id)` pair without the other. -/
theorem reference_pairs_all_or_nothing (extraData : Bool) (nowT : Nat)
    (verb : PyVal) (kwargs : List (String × PyVal)) (n : Notification)
    (h : notify_handler extraData nowT verb kwargs = .ok n) :
    ((n.target_content_type = none ∧ n.target_object_id = none) ∨
     (n.target_content_type.isSome = true ∧ n.target_object_id.isSome = true)) ∧
    ((n.action_object_content_type = none ∧ n.action_object_object_id = none) ∨
     (n.action_object_content_type.isSome = true ∧
      n.action_object_object_id.isSome = true)) := by
  obtain ⟨-, -, ht, ha, -⟩ := notify_handler_ok_spec h
  constructor
  · cases hct : n.target_content_type <;> cases hoid : n.target_object_id <;>
      simp_all
  · cases hct : n.action_object_content_type <;>
      cases hoid : n.action_object_object_id <;> simp_all

/-- Witness for C8, at a payload carrying a target but no action
object. -/
theorem reference_pairs_all_or_nothing_witness :
    ((createdSample.target_content_type = none ∧
      createdSample.target_object_id = none) ∨
     (createdSample.target_content_type.isSome = true ∧
      createdSample.target_object_id.isSome = true)) ∧
    ((createdSample.action_object_content_type = none ∧
      createdSample.action_object_object_id = none) ∨
     (createdSample.action_object_content_type.isSome = true ∧
      createdSample.action_object_object_id.isSome = true)) :=
  reference_pairs_all_or_nothing true 0 (.pyStr "liked") kwSample
    createdSample rfl

/-- Claim C10: The adapter pops the `signal` key before building the row,
so (a) the stored `data` payload never contains a `signal` entry, even
with extended-data storage enabled, and (b) a payload whose every key is
recognized — in particular one whose only extra key is `signal` — stores
no `data` attribute at all. -/
theorem signal_key_never_stored (nowT : Nat) (verb : PyVal)
    (kwargs : List (String × PyVal)) (n : Notification)
    (h : notify_handler true nowT verb kwargs = .ok n) :
    (∀ d, n.data = some d → ∀ p ∈ d, p.1 ≠ "signal") ∧
    ((∀ p ∈ kwargs, p.1 ∈ recognizedKeys) → n.data = none) := by
  obtain ⟨-, -, -, -, hdata⟩ := notify_handler_ok_spec h
  constructor
  · intro d hd p hp
    rw [hdata] at hd
    split at hd
    · injection hd with hd
      subst hd
      intro heq
      refine (mem_remaining_key_ne hp).2 ?_
      rw [heq]
      simp [recognizedKeys]
    · cases hd
  · intro hall
    have hnil : remainingKwargs kwargs = [] := by
      rw [List.eq_nil_iff_forall_not_mem]
      intro p hp
      exact (mem_remaining_key_ne hp).2 (hall p (mem_remaining_key_ne hp).1)
    rw [hdata, hnil]
    rfl

/-- Witness for C10: a payload whose extra keys are `signal` plus one
real extra keeps only the real extra in `data`; a payload whose only
extra key is `signal` stores no data. -/
theorem signal_key_never_stored_witness :
    (∀ d, createdSignal.data = some d → ∀ p ∈ d, p.1 ≠ "signal") ∧
    ((∀ p ∈ kwOnlySignal, p.1 ∈ recognizedKeys) → createdSignal.data = none) :=
  signal_key_never_stored 0 (.pyStr "liked") kwOnlySignal createdSignal rfl

/-- Claim C6 (code bug): At the same concrete payload carrying one extra
pair `("foo", "bar")`: with extended-data storage enabled the pair is
stored verbatim as `data`, but with it disabled the adapter does not
create a row at all — `Notification(...)` is passed the `custom_ctx`
keyword (line 194) although no such field exists without
`NOTIFY_USE_JSONFIELD`, so Django's `Model.__init__` raises `TypeError`
instead of silently discarding the extras. -/
theorem extra_data_disabled_creation_raises :
    (∃ n, notify_handler true 0 (.pyStr "liked") kwExtra = .ok n ∧
      n.data = some [("foo", .pyStr "bar")]) ∧
    notify_handler false 0 (.pyStr "liked") kwExtra = .error .typeError :=
  ⟨⟨_, rfl, rfl⟩, rfl⟩

/-- Interpolation of the no-target, no-action-object template. -/
theorem pyFormat_base (A AO T : PyVal) (v ts : String) :
    pyFormat "%(actor)s %(verb)s %(timesince)s ago"
      [("actor", A), ("verb", .pyStr v), ("action_object", AO),
       ("target", T), ("timesince", .pyStr ts)] =
    .ok (A.str ++ " " ++ v ++ " " ++ ts ++ " ago") := by
  have h : pyFormat "%(actor)s %(verb)s %(timesince)s ago"
      [("actor", A), ("verb", .pyStr v), ("action_object", AO),
       ("target", T), ("timesince", .pyStr ts)] =
      .ok (String.mk (A.str.toList ++ ' ' :: (v.toList ++ ' ' ::
        (ts.toList ++ [' ', 'a', 'g', 'o'])))) := rfl
  rw [h]
  apply congrArg Except.ok
  apply String.ext
  simp [String.data_append, List.append_assoc]

/-- Interpolation of the target-only template. -/
theorem pyFormat_target (A AO T : PyVal) (v ts : String) :
    pyFormat "%(actor)s %(verb)s %(target)s %(timesince)s ago"
      [("actor", A), ("verb", .pyStr v), ("action_object", AO),
       ("target", T), ("timesince", .pyStr ts)] =
    .ok (A.str ++ " " ++ v ++ " " ++ T.str ++ " " ++ ts ++ " ago") := by
  have h : pyFormat "%(actor)s %(verb)s %(target)s %(timesince)s ago"
      [("actor", A), ("verb", .pyStr v), ("action_object", AO),
       ("target", T), ("timesince", .pyStr ts)] =
      .ok (String.mk (A.str.toList ++ ' ' :: (v.toList ++ ' ' ::
        (T.str.toList ++ ' ' :: (ts.toList ++ [' ', 'a', 'g', 'o']))))) := rfl
  rw [h]
  apply congrArg Except.ok
  apply String.ext
  simp [String.data_append, List.append_assoc]

/-- Interpolation of the action-object-only template. -/
theorem pyFormat_ao (A AO T : PyVal) (v ts : String) :
    pyFormat "%(actor)s %(verb)s %(action_object)s %(timesince)s ago"
      [("actor", A), ("verb", .pyStr v), ("action_object", AO),
       ("target", T), ("timesince", .pyStr ts)] =
    .ok (A.str ++ " " ++ v ++ " " ++ AO.str ++ " " ++ ts ++ " ago") := by
  have h : pyFormat "%(actor)s %(verb)s %(action_object)s %(timesince)s ago"
      [("actor", A), ("verb", .pyStr v), ("action_object", AO),
       ("target", T), ("timesince", .pyStr ts)] =
      .ok (String.mk (A.str.toList ++ ' ' :: (v.toList ++ ' ' ::
        (AO.str.toList ++ ' ' :: (ts.toList ++ [' ', 'a', 'g', 'o']))))) := rfl
  rw [h]
  apply congrArg Except.ok
  apply String.ext
  simp [String.data_append, List.append_assoc]

/-- Interpolation of the target-and-action-object template. -/
theorem pyFormat_target_ao (A AO T : PyVal) (v ts : String) :
    pyFormat "%(actor)s %(verb)s %(action_object)s on %(target)s %(timesince)s ago"
      [("actor", A), ("verb", .pyStr v), ("action_object", AO),
       ("target", T), ("timesince", .pyStr ts)] =
    .ok (A.str ++ " " ++ v ++ " " ++ AO.str ++ " on " ++ T.str ++ " " ++
      ts ++ " ago") := by
  have h : pyFormat
      "%(actor)s %(verb)s %(action_object)s on %(target)s %(timesince)s ago"
      [("actor", A), ("verb", .pyStr v), ("action_object", AO),
       ("target", T), ("timesince", .pyStr ts)] =
      .ok (String.mk (A.str.toList ++ ' ' :: (v.toList ++ ' ' ::
        (AO.str.toList ++ ' ' :: 'o' :: 'n' :: ' ' ::
          (T.str.toList ++ ' ' :: (ts.toList ++ [' ', 'a', 'g', 'o'])))))) := rfl
  rw [h]
  apply congrArg Except.ok
  apply String.ext
  simp [String.data_append, List.append_assoc]

/-- Claim C4: For every Notification whose `custom_str_format` is unset
(and whose `custom_ctx` substitution feature is unused), the rendered
string is exactly the spec's template selection: target present →
`"{actor} {verb} {action_object} on {target} {timesince} ago"` with the
action-object clause only when present; else action_object present →
`"{actor} {verb} {action_object} {timesince} ago"`; else
`"{actor} {verb} {timesince} ago"`. -/
theorem default_template_selection (db : List Entity) (tsFn : Nat → String)
    (n : Notification)
    (hcsf : n.custom_str_format.toBool = false)
    (hcc : n.custom_ctx.toBool = false) :
    n.unicodeStr db tsFn = .ok (specRender
      (optEntityVal (gfk db (some n.actor_content_type)
        (some n.actor_object_id))).str
      n.verb
      ((gfk db n.action_object_content_type n.action_object_object_id).map
        Entity.str)
      ((gfk db n.target_content_type n.target_object_id).map Entity.str)
      (tsFn n.timestamp)) := by
  cases hT : gfk db n.target_content_type n.target_object_id <;>
    cases hA : gfk db n.action_object_content_type n.action_object_object_id <;>
      simp [Notification.unicodeStr, Notification.renderCtx, hcc, hcsf, hT, hA,
        pyFormat_base, pyFormat_target, pyFormat_ao, pyFormat_target_ao,
        specRender, optEntityVal, PyVal.str]

/-- Witness for C4, the claim's concrete instance: actor `A`, verb
`"commented on"`, target `T`, no action object renders to
`"A commented on T 2 hours ago"`. -/
theorem default_template_selection_witness :
    sampleN.unicodeStr dbE (fun _ => "2 hours") =
      .ok "A commented on T 2 hours ago" := by
  have h := default_template_selection dbE (fun _ => "2 hours") sampleN rfl rfl
  rw [h]
  rfl

/-- Claim C7: For every Notification whose `custom_str_format` is set (a
truthy string; `custom_ctx` substitution unused), rendering interpolates
the context mapping (actor, verb, action_object, target, timesince) into
that format string and returns the result, bypassing the default
template selection entirely — the right-hand side does not depend on
whether target or action_object are present. -/
theorem custom_format_overrides (db : List Entity) (tsFn : Nat → String)
    (n : Notification) (f : String)
    (hcc : n.custom_ctx.toBool = false)
    (hf : n.custom_str_format = .pyStr f) (hne : f ≠ "") :
    n.unicodeStr db tsFn = pyFormat f (n.renderCtx db tsFn) := by
  unfold Notification.unicodeStr
  rw [hcc, hf]
  simp [PyVal.toBool, hne]

/-- Witness for C7: the spec's example format
`"%(actor)s did %(verb)s"` overrides the default selection although a
target is present. -/
theorem custom_format_overrides_witness :
    ({ sampleN with custom_str_format := .pyStr "%(actor)s did %(verb)s" } :
      Notification).unicodeStr dbE (fun _ => "2 hours") =
      .ok "A did commented on" := by
  have h := custom_format_overrides dbE (fun _ => "2 hours")
    { sampleN with custom_str_format := .pyStr "%(actor)s did %(verb)s" }
    "%(actor)s did %(verb)s" rfl rfl (by decide)
  rw [h]
  rfl

/-- Counterexample for C3 as stated: ingesting an event that lacks the
required `recipient` raises a `KeyError` from `kwargs.pop('recipient')`
(line 182), not a `ConfigurationError` — nothing in `notify_handler`
raises `ImproperlyConfigured`. -/
theorem missing_recipient_not_config_error :
    notify_send true 0 [("verb", .pyStr "v")] = .error (.keyError "recipient") ∧
    isConfigurationError (notify_send true 0 [("verb", .pyStr "v")]) = false :=
  ⟨rfl, rfl⟩

/-- Claim C3 (amended): When the activity event payload lacks a required
field, ingestion fails synchronously with the corresponding Python
exception surfaced to the caller: a `TypeError` when `verb` is absent
(missing required argument of the handler), and a `KeyError` when
`recipient` or `sender` is absent — not a `ConfigurationError`. -/
theorem missing_required_fields_fail (extraData : Bool) (nowT : Nat)
    (kwargs : List (String × PyVal)) :
    (kwLookup "verb" kwargs = none →
      notify_send extraData nowT kwargs = .error .typeError) ∧
    (∀ v, kwLookup "verb" kwargs = some v →
      kwLookup "recipient" kwargs = none →
      notify_send extraData nowT kwargs = .error (.keyError "recipient")) ∧
    (∀ v r, kwLookup "verb" kwargs = some v →
      kwLookup "recipient" kwargs = some r →
      kwLookup "sender" kwargs = none →
      notify_send extraData nowT kwargs = .error (.keyError "sender")) := by
  refine ⟨?_, ?_, ?_⟩
  · intro hv
    unfold kwLookup at hv
    unfold notify_send kwPop
    rw [hv]
  · intro v hv hr
    unfold kwLookup at hv hr
    unfold notify_send kwPop
    rw [hv]
    dsimp only []
    simp only [notify_handler, kwPop]
    rw [find?_filter_eq_none (find?_filter_eq_none (Option.map_eq_none'.mp hr))]
    rfl
  · intro v r hv hr hs
    unfold kwLookup at hv hr hs
    unfold notify_send kwPop
    rw [hv]
    dsimp only []
    simp only [notify_handler, kwPop]
    obtain ⟨pr, hpr, -⟩ := Option.map_eq_some'.mp hr
    rw [find?_filter_of_imp (fun x hx => by simp_all),
        find?_filter_of_imp (fun x hx => by simp_all), hpr]
    simp only [Option.map_some']
    rw [find?_filter_eq_none (find?_filter_eq_none
      (find?_filter_eq_none (Option.map_eq_none'.mp hs)))]
    rfl

/-- Witness for C3 (amended), at three concrete deficient payloads. -/
theorem missing_required_fields_fail_witness :
    notify_send true 0 [] = .error .typeError ∧
    notify_send true 0 [("verb", .pyStr "v"), ("foo", .pyStr "x")] =
      .error (.keyError "recipient") ∧
    notify_send true 0 [("verb", .pyStr "v"), ("recipient", .pyObj userU)] =
      .error (.keyError "sender") :=
  ⟨(missing_required_fields_fail true 0 []).1 rfl,
   (missing_required_fields_fail true 0
      [("verb", .pyStr "v"), ("foo", .pyStr "x")]).2.1 (.pyStr "v") rfl rfl,
   (missing_required_fields_fail true 0
      [("verb", .pyStr "v"), ("recipient", .pyObj userU)]).2.2
      (.pyStr "v") (.pyObj userU) rfl rfl rfl⟩

/-- Claim C9 (amended): Default retrieval order (`Meta.ordering =
('-timestamp',)`) lists notifications by non-increasing timestamp: for
any two consecutive notifications in the default-ordered result, the
earlier one's timestamp is greater than **or equal to** the later one's
(strictness fails on ties, see the counterexample). -/
theorem default_ordering_descending (db : List Notification) :
    List.Chain' byTimestampDesc (defaultOrdering db) :=
  List.Pairwise.chain' (List.sorted_insertionSort byTimestampDesc db)

/-- Counterexample for C9 as stated: two notifications sharing a
timestamp are returned consecutively, and then the earlier one's
timestamp is not strictly greater than the later one's. -/
theorem default_ordering_not_strict :
    ¬ List.Chain' (fun a b => b.timestamp < a.timestamp)
      (defaultOrdering [sampleN, sampleW]) := by
  have h : defaultOrdering [sampleN, sampleW] = [sampleN, sampleW] := rfl
  rw [h]
  simp [List.chain'_cons, sampleN, sampleW]

end DjangoNotifications
